import Mathlib

/-!
Verification of the FMCW radar range-Doppler pipeline and acquisition loop
of the fedurca/radar repository, as a shallow embedding in Lean 4.

Numeric model: the Python sources compute with IEEE floats; we model the
scalars by exact rationals, and complex samples by pairs of rationals
(`Cplx` below).  The transcendental constants of the pipeline, namely the
Blackman-Harris window coefficients `scipy.signal.windows.blackmanharris(M)`
and the Fourier twiddle factors `exp(-2*pi*i*j/N)` used by `np.fft.fft`,
are irrational in general, so the pipeline definitions take them as
parameters (`range_window`, `doppler_window`, and a twiddle function `e`
with `e N j` standing for `exp(-2*pi*i*j/N)`).  All structural theorems
below are proved for every value of these parameters, hence in particular
for the true window and twiddle values.  Where a concrete evaluation is
needed (counterexamples and witnesses) we pick sizes `M = N = 2`, for which
the true values are exactly representable rationals: the Blackman-Harris
window of length 2 is `[3/50000, 3/50000]` (all cosines evaluate at
multiples of pi) and `exp(-2*pi*i*j/2) = (-1)^j`.

`np.abs` of a complex cell is modelled by the squared magnitude
`Cplx.absSq`; the square root is strictly monotone on nonnegative reals, so
the row-major argmax position is the same and a cell has magnitude zero
exactly when it has squared magnitude zero, which is all the claims use.
-/

/-- Complex numbers with exact rational real and imaginary parts, the model
of the `numpy` complex values flowing through the FFT pipeline. -/
structure Cplx where
  re : ℚ
  im : ℚ
deriving DecidableEq, Repr

namespace Cplx

@[ext] theorem ext {a b : Cplx} (hre : a.re = b.re) (him : a.im = b.im) : a = b := by
  cases a; cases b; simp_all

instance : Zero Cplx := ⟨⟨0, 0⟩⟩
instance : One Cplx := ⟨⟨1, 0⟩⟩
instance : Add Cplx := ⟨fun a b => ⟨a.re + b.re, a.im + b.im⟩⟩
instance : Neg Cplx := ⟨fun a => ⟨-a.re, -a.im⟩⟩
instance : Sub Cplx := ⟨fun a b => ⟨a.re - b.re, a.im - b.im⟩⟩
instance : Mul Cplx := ⟨fun a b => ⟨a.re * b.re - a.im * b.im, a.re * b.im + a.im * b.re⟩⟩

@[simp] theorem zero_re : (0 : Cplx).re = 0 := rfl
@[simp] theorem zero_im : (0 : Cplx).im = 0 := rfl
@[simp] theorem one_re : (1 : Cplx).re = 1 := rfl
@[simp] theorem one_im : (1 : Cplx).im = 0 := rfl
@[simp] theorem add_re (a b : Cplx) : (a + b).re = a.re + b.re := rfl
@[simp] theorem add_im (a b : Cplx) : (a + b).im = a.im + b.im := rfl
@[simp] theorem neg_re (a : Cplx) : (-a).re = -a.re := rfl
@[simp] theorem neg_im (a : Cplx) : (-a).im = -a.im := rfl
@[simp] theorem sub_re (a b : Cplx) : (a - b).re = a.re - b.re := rfl
@[simp] theorem sub_im (a b : Cplx) : (a - b).im = a.im - b.im := rfl
@[simp] theorem mul_re (a b : Cplx) : (a * b).re = a.re * b.re - a.im * b.im := rfl
@[simp] theorem mul_im (a b : Cplx) : (a * b).im = a.re * b.im + a.im * b.re := rfl

instance : CommRing Cplx where
  add_assoc a b c := by ext <;> simp <;> ring
  zero_add a := by ext <;> simp
  add_zero a := by ext <;> simp
  add_comm a b := by ext <;> simp <;> ring
  neg_add_cancel a := by ext <;> simp
  sub_eq_add_neg a b := by ext <;> simp <;> ring
  mul_assoc a b c := by ext <;> simp <;> ring
  one_mul a := by ext <;> simp
  mul_one a := by ext <;> simp
  left_distrib a b c := by ext <;> simp <;> ring
  right_distrib a b c := by ext <;> simp <;> ring
  zero_mul a := by ext <;> simp
  mul_zero a := by ext <;> simp
  mul_comm a b := by ext <;> simp <;> ring
  nsmul := nsmulRec
  zsmul := zsmulRec

/-- Embedding of a real (rational) scalar as a complex value. -/
def ofRat (q : ℚ) : Cplx := ⟨q, 0⟩

@[simp] theorem ofRat_re (q : ℚ) : (ofRat q).re = q := rfl
@[simp] theorem ofRat_im (q : ℚ) : (ofRat q).im = 0 := rfl

@[simp] theorem ofRat_zero : ofRat 0 = 0 := rfl
@[simp] theorem ofRat_one : ofRat 1 = 1 := rfl

theorem ofRat_add (a b : ℚ) : ofRat (a + b) = ofRat a + ofRat b := by
  ext <;> simp

theorem ofRat_mul (a b : ℚ) : ofRat (a * b) = ofRat a * ofRat b := by
  ext <;> simp

/-- Squared magnitude of a complex cell; `np.abs` is its square root, and
the argmax position and zero-ness of a magnitude map are invariant under
the strictly monotone square root. -/
def absSq (z : Cplx) : ℚ := z.re ^ 2 + z.im ^ 2

@[simp] theorem absSq_zero : absSq 0 = 0 := by simp [absSq]

theorem sum_const_range (m : ℕ) (v : Cplx) :
    ∑ _c ∈ Finset.range m, v = ofRat (m : ℚ) * v := by
  induction m with
  | zero => simp
  | succ n ih =>
      rw [Finset.sum_range_succ, ih, Nat.cast_succ, ofRat_add, ofRat_one, add_mul, one_mul]

end Cplx

/-! ### FFT building blocks shared by all `DopplerAlgo` variants -/

/-- One bin of the length-`N` discrete Fourier transform: `np.fft.fft`
computes `X[k] = sum over n < N of x[n] * exp(-2*pi*i*k*n/N)`; the twiddle
parameter `e` supplies `e N j` for `exp(-2*pi*i*j/N)`. -/
def dft (e : ℕ → ℕ → Cplx) (N : ℕ) (x : ℕ → Cplx) (k : ℕ) : Cplx :=
  ∑ n ∈ Finset.range N, x n * e N (k * n)

/-- `np.fft.fftshift` along an axis of length `m` is `np.roll(x, m // 2)`:
entry `i` of the output is entry `(i - m // 2) mod m` of the input, written
here with the nonnegative representative `i + (m - m / 2)`. -/
def fftshift (m : ℕ) (x : ℕ → Cplx) (i : ℕ) : Cplx :=
  x ((i + (m - m / 2)) % m)

/-- `np.linspace(start, stop, num)` with the default `endpoint=True`:
entry `i` is `start + i * (stop - start) / (num - 1)`.  For `num = 1`
numpy returns `[start]`, which this formula also yields because the
`i = 0` numerator vanishes before the (rational, total) division. -/
def linspace (start stop : ℚ) (num : ℕ) : List ℚ :=
  (List.range num).map fun i : ℕ => start + (i : ℚ) * (stop - start) / ((num : ℚ) - 1)

/-- Row-major argmax, as in `np.unravel_index(np.argmax(a), a.shape)` for an
array of shape `(m, n)`: the first position in row-major order attaining the
maximum (`np.argmax` returns the first occurrence of the maximum; the fold
replaces the current best only on a strictly larger value).  For `m, n > 0`
the start value `(0, 0)` is the first scanned cell, so the fold is exactly
the numpy scan; on an empty shape the result defaults to `(0, 0)`, a case no
theorem below relies on. -/
def argmax2d (m n : ℕ) (f : ℕ → ℕ → ℚ) : ℕ × ℕ :=
  ((List.range m).flatMap fun i => (List.range n).map fun j => (i, j)).foldl
    (fun best q => if f best.1 best.2 < f q.1 q.2 then q else best) (0, 0)

namespace DopplerAlgo

/-- `_calculate_range_axis`:
`np.arange(num_samples_per_chirp // 2) * range_resolution_m`. -/
def calculate_range_axis (num_samples_per_chirp : ℕ) (range_resolution_m : ℚ) : List ℚ :=
  (List.range (num_samples_per_chirp / 2)).map fun i : ℕ => (i : ℚ) * range_resolution_m

/-- `_calculate_speed_axis` of the radar_webserver.py / test.py / web.py /
histogram.py / h2.py variant:
`np.linspace(-max_speed_m_s, max_speed_m_s, num_chirps_per_frame)`. -/
def calculate_speed_axis (num_chirps_per_frame : ℕ) (max_speed_m_s : ℚ) : List ℚ :=
  linspace (-max_speed_m_s) max_speed_m_s num_chirps_per_frame

/-- Row `c`, bin `k` of the range FFT: the samples of chirp `c` are
windowed (`range_data = frame_data * self.range_window`) and transformed
along the sample axis (`np.fft.fft(range_data, axis=1)`).  Only bins
`k < num_samples_per_chirp / 2` are retained downstream
(`range_fft[:, :N//2]`). -/
def range_fft (e : ℕ → ℕ → Cplx) (num_samples_per_chirp : ℕ) (range_window : ℕ → ℚ)
    (frame : ℕ → ℕ → ℚ) (c k : ℕ) : Cplx :=
  dft e num_samples_per_chirp (fun j => Cplx.ofRat (frame c j * range_window j)) k

/-- Per-bin mean across the `m` chirps: `np.mean(range_fft, axis=0)`,
i.e. the column sum divided by `m`. -/
def mean_across_chirps (m : ℕ) (B : ℕ → ℕ → Cplx) (k : ℕ) : Cplx :=
  Cplx.ofRat (1 / (m : ℚ)) * ∑ c ∈ Finset.range m, B c k

/-- MTI step of radar_webserver.py / test.py / web.py / dop_me.py /
histogram.py / h2.py: `range_fft_mti = range_fft - np.mean(range_fft, axis=0)`. -/
def range_fft_mti (e : ℕ → ℕ → Cplx) (N : ℕ) (range_window : ℕ → ℚ) (m : ℕ)
    (frame : ℕ → ℕ → ℚ) (c k : ℕ) : Cplx :=
  range_fft e N range_window frame c k -
    mean_across_chirps m (range_fft e N range_window frame) k

/-- `doppler_data = range_fft_mti * self.doppler_window[:, np.newaxis]`:
row `c` is scaled by the `c`-th Doppler window coefficient. -/
def doppler_data (e : ℕ → ℕ → Cplx) (N : ℕ) (range_window doppler_window : ℕ → ℚ)
    (m : ℕ) (frame : ℕ → ℕ → ℚ) (c k : ℕ) : Cplx :=
  Cplx.ofRat (doppler_window c) * range_fft_mti e N range_window m frame c k

/-- `range_doppler_map = np.fft.fftshift(np.fft.fft(doppler_data, axis=0), axes=0)`:
Doppler FFT along the chirp axis (length `m`), then the zero-Doppler bin is
shifted to the centre. -/
def range_doppler_map (e : ℕ → ℕ → Cplx) (N : ℕ) (range_window doppler_window : ℕ → ℚ)
    (m : ℕ) (frame : ℕ → ℕ → ℚ) (d k : ℕ) : Cplx :=
  fftshift m (fun i => dft e m (fun c => doppler_data e N range_window doppler_window m frame c k) i) d

/-- `range_doppler_map_abs = np.abs(range_doppler_map)`, modelled by the
squared magnitude (argmax position and zero-ness are unchanged, see the
header comment). -/
def range_doppler_map_abs (e : ℕ → ℕ → Cplx) (N : ℕ)
    (range_window doppler_window : ℕ → ℚ) (m : ℕ) (frame : ℕ → ℕ → ℚ) (d k : ℕ) : ℚ :=
  Cplx.absSq (range_doppler_map e N range_window doppler_window m frame d k)

/-- `peak_idx = np.unravel_index(np.argmax(range_doppler_map_abs), shape)`,
giving `(doppler_idx, range_idx)`; the map has `m` Doppler rows and
`num_samples_per_chirp / 2` range columns. -/
def peak_index (e : ℕ → ℕ → Cplx) (N : ℕ) (range_window doppler_window : ℕ → ℚ)
    (m : ℕ) (frame : ℕ → ℕ → ℚ) : ℕ × ℕ :=
  argmax2d m (N / 2) (range_doppler_map_abs e N range_window doppler_window m frame)

/-- `DopplerAlgo.compute_doppler_map` of radar_webserver.py / test.py (the
variant driving the acquisition loops): range FFT, MTI, Doppler FFT, shift,
magnitude, peak search, then the axis lookups
`self.range_axis[range_idx], self.speed_axis[doppler_idx]` inside
`try ... except IndexError: return 0.0, 0.0, 0.0`.  The axes are parameters
because they are precomputed in `__init__` and can be stale relative to the
frame; an out-of-bounds Python list/array index raises `IndexError`, which
the `except` clause converts to `(0.0, 0.0, 0.0)` — the `Option`-valued
`List.get?` lookups model exactly that. -/
def compute_doppler_map (e : ℕ → ℕ → Cplx) (N : ℕ)
    (range_window doppler_window : ℕ → ℚ) (range_axis speed_axis : List ℚ)
    (m : ℕ) (frame : ℕ → ℕ → ℚ) : ℚ × ℚ × ℚ :=
  match range_axis.get? (peak_index e N range_window doppler_window m frame).2,
        speed_axis.get? (peak_index e N range_window doppler_window m frame).1 with
  | some dist, some sp =>
      (dist, sp,
        range_doppler_map_abs e N range_window doppler_window m frame
          (peak_index e N range_window doppler_window m frame).1
          (peak_index e N range_window doppler_window m frame).2)
  | _, _ => (0, 0, 0)

end DopplerAlgo

namespace HelperPy

/-- helper.py's `doppler_data`: helper.py windows the *unsubtracted* range
FFT (`doppler_data = range_fft * self.doppler_window[:, np.newaxis]`) —
this variant has no MTI mean-subtraction step. -/
def doppler_data (e : ℕ → ℕ → Cplx) (N : ℕ) (range_window doppler_window : ℕ → ℚ)
    (frame : ℕ → ℕ → ℚ) (c k : ℕ) : Cplx :=
  Cplx.ofRat (doppler_window c) * DopplerAlgo.range_fft e N range_window frame c k

/-- helper.py's range-Doppler magnitude map (squared-magnitude model):
Doppler FFT of the windowed, non-MTI range FFT, shifted, then `np.abs`. -/
def range_doppler_map_abs (e : ℕ → ℕ → Cplx) (N : ℕ)
    (range_window doppler_window : ℕ → ℚ) (m : ℕ) (frame : ℕ → ℕ → ℚ) (d k : ℕ) : ℚ :=
  Cplx.absSq (fftshift m
    (fun i => dft e m (fun c => doppler_data e N range_window doppler_window frame c k) i) d)

end HelperPy

/-! ### The acquisition loop (run_radar_loop) of test.py and radar_webserver.py -/

/-- `EMA_ALPHA = 0.4`, the fixed exponential-moving-average smoothing
factor of test.py, radar_webserver.py, web.py and histogram.py. -/
def EMA_ALPHA : ℚ := 0.4

/-- Direction classification published by the loop; the Czech strings of
test.py and the lowercase strings of radar_webserver.py both carry these
four cases, with `none` standing for the "---" (no target) marker. -/
inductive Direction where
  | static
  | approaching
  | receding
  | none
deriving DecidableEq, Repr

/-- Connection status published with each payload (`"connected"` vs the
`"waiting_for_device"` sent from the except branch). -/
inductive Status where
  | connected
  | waiting_for_device
deriving DecidableEq, Repr

/-- The accumulated min/max statistics dictionary of test.py
(`reset_stats` initialises min entries to `None` and max entries to 0). -/
structure Stats where
  min_dist_cm : Option ℚ
  max_dist_cm : ℚ
  min_speed_ms : Option ℚ
  max_speed_ms : ℚ
  min_peak : Option ℚ
  max_peak : ℚ
deriving DecidableEq, Repr

/-- test.py `reset_stats()`. -/
def reset_stats : Stats := ⟨Option.none, 0, Option.none, 0, Option.none, 0⟩

/-- The fields of the broadcast `data_payload` the claims are about. -/
structure Payload where
  status : Status
  distance_cm : ℚ
  speed_ms : ℚ
  direction : Direction
  peak : ℚ
deriving DecidableEq, Repr

/-- test.py's min update idiom
`if stats[m] is None or x < stats[m]: stats[m] = x`. -/
def update_min (old : Option ℚ) (x : ℚ) : Option ℚ :=
  match old with
  | Option.none => some x
  | some v => if x < v then some x else some v

/-- The per-frame processing step of test.py's `run_radar_loop`
(lines 506-538): threshold test, EMA smoothing (`smoothed_distance` and
`smoothed_speed` are assigned together and guarded by a single
`is None` test, so they are modelled as one optional pair), direction
classification from the smoothed speed, min/max statistics update, and the
broadcast payload.  Below threshold, the payload carries zeroed
distance/speed/peak and the "---" direction while the smoothing state and
the statistics are left untouched. -/
def run_radar_loop_step (peak_threshold speed_resolution_m_s : ℚ)
    (smoothed : Option (ℚ × ℚ)) (stats : Stats)
    (distance_m speed_ms peak_value : ℚ) :
    Option (ℚ × ℚ) × Stats × Payload :=
  if peak_threshold ≤ peak_value then
    let distance_cm := distance_m * 100
    let sd_ss : ℚ × ℚ :=
      match smoothed with
      | Option.none => (distance_cm, speed_ms)
      | some (pd, ps) =>
          (EMA_ALPHA * distance_cm + (1 - EMA_ALPHA) * pd,
           EMA_ALPHA * speed_ms + (1 - EMA_ALPHA) * ps)
    let direction : Direction :=
      if |sd_ss.2| < speed_resolution_m_s then Direction.static
      else if sd_ss.2 < 0 then Direction.approaching
      else Direction.receding
    let stats2 : Stats :=
      { min_dist_cm := update_min stats.min_dist_cm sd_ss.1
        max_dist_cm := max stats.max_dist_cm sd_ss.1
        min_speed_ms := update_min stats.min_speed_ms sd_ss.2
        max_speed_ms := max stats.max_speed_ms sd_ss.2
        min_peak := update_min stats.min_peak peak_value
        max_peak := max stats.max_peak peak_value }
    (some sd_ss, stats2, ⟨Status.connected, sd_ss.1, sd_ss.2, direction, peak_value⟩)
  else
    (smoothed, stats, ⟨Status.connected, 0, 0, Direction.none, 0⟩)

/-- The per-frame processing step of radar_webserver.py's `run_radar_loop`
(lines 221-246): same threshold test, EMA smoothing and direction
classification as test.py, but the below-threshold branch executes
`smoothed_distance, smoothed_speed, direction, peak_value = 0.0, 0.0, "---", 0.0`,
overwriting the smoothing accumulators with 0.0 (not `None`). -/
def radar_webserver_step (peak_threshold speed_resolution_m_s : ℚ)
    (smoothed : Option (ℚ × ℚ)) (distance_m speed_ms peak_value : ℚ) :
    Option (ℚ × ℚ) × Payload :=
  if peak_threshold ≤ peak_value then
    let distance_cm := distance_m * 100
    let sd_ss : ℚ × ℚ :=
      match smoothed with
      | Option.none => (distance_cm, speed_ms)
      | some (pd, ps) =>
          (EMA_ALPHA * distance_cm + (1 - EMA_ALPHA) * pd,
           EMA_ALPHA * speed_ms + (1 - EMA_ALPHA) * ps)
    let direction : Direction :=
      if |sd_ss.2| < speed_resolution_m_s then Direction.static
      else if sd_ss.2 < 0 then Direction.approaching
      else Direction.receding
    (some sd_ss, ⟨Status.connected, sd_ss.1, sd_ss.2, direction, peak_value⟩)
  else
    (some (0, 0), ⟨Status.connected, 0, 0, Direction.none, 0⟩)

/-! ### Reconfiguration clamping (test.py lines 469-481) -/

/-- The chirp-count timing-budget check of test.py: with
`required_time_s = chirp_duration_s * num_chirps` and
`available_time_s = 1.0 / frate`, a request with
`required_time_s > available_time_s * 0.9` is replaced by
`int((available_time_s * 0.9) / chirp_duration_s)` and a warning is logged
(the returned Bool); otherwise the request is applied unchanged.  Python's
`int()` truncates toward zero, which equals the floor here because the
argument is nonnegative for positive duration and frame rate. -/
def clamp_num_chirps (chirp_duration_s frate : ℚ) (num_chirps : ℤ) : ℤ × Bool :=
  let required_time_s : ℚ := chirp_duration_s * num_chirps
  let available_time_s : ℚ := 1 / frate
  if available_time_s * 0.9 < required_time_s then
    (⌊available_time_s * 0.9 / chirp_duration_s⌋, true)
  else
    (num_chirps, false)

/-! ### Watchdog (web.py lines 40 and 278-288) -/

/-- `WATCHDOG_TIMEOUT_S = 10`, defined at web.py line 40.  histogram.py's
watchdog thread uses the same name but its module never binds it; that
broken variant is modelled separately in the `HistogramPy` namespace
below. -/
def WATCHDOG_TIMEOUT_S : ℚ := 10

/-- One check of web.py's `watchdog_thread_func`: restart (via `os.execv`)
exactly when `now - last_frame_time` exceeds the fixed timeout (strict `>`
in the source). -/
def watchdog_check (now last_frame_time : ℚ) : Bool :=
  decide (WATCHDOG_TIMEOUT_S < now - last_frame_time)

/-- Time of the k-th check of web.py's watchdog thread: the thread is an
unconditional loop that sleeps `WATCHDOG_TIMEOUT_S / 2` seconds and then
checks, so (idealizing the check itself as instantaneous) check `k`
happens `(k+1) * (timeout / 2)` seconds after the thread starts. -/
def watchdog_tick_time (start : ℚ) (k : ℕ) : ℚ :=
  start + (k + 1) * (WATCHDOG_TIMEOUT_S / 2)

/-! ### Fault recovery (test.py lines 542-548) -/

/-- The loop-owned state the except branch of test.py resets: the smoothing
pair, whether a device handle is held, and the statistics. -/
structure LoopState where
  smoothed : Option (ℚ × ℚ)
  device_connected : Bool
  stats : Stats
deriving DecidableEq, Repr

/-- The `except Exception` branch of test.py's `run_radar_loop`: broadcast
the `waiting_for_device` status, set `smoothed_distance`, `smoothed_speed`
and `device` to `None`, reset the statistics, and sleep 3 seconds before
the next iteration (the returned rational is the backoff in seconds). -/
def on_frame_error (_s : LoopState) : LoopState × Status × ℚ :=
  (⟨Option.none, false, reset_stats⟩, Status.waiting_for_device, 3)

/-- One iteration of the `while True:` loop of test.py: the entire body runs
inside `try ... except Exception`, so a body that fails with any error (the
`Except.error` case) is handled by `on_frame_error` and the loop continues;
a body that succeeds yields its new state with no backoff.  The iteration is
a total function: no error escapes it. -/
def loop_iteration (body : LoopState → Except Unit (LoopState × Status))
    (s : LoopState) : LoopState × Status × ℚ :=
  match body s with
  | Except.ok (s2, st) => (s2, st, 0)
  | Except.error _ => on_frame_error s

/-- `n` iterations of the loop; `while True:` has no exit, so this is total
for every `n`. -/
def iterate_loop (body : LoopState → Except Unit (LoopState × Status)) :
    ℕ → LoopState → LoopState
  | 0, s => s
  | n + 1, s => iterate_loop body n (loop_iteration body s).1

namespace HistogramPy

/-- The numeric module-level constants of histogram.py's configuration
section (lines 33-37) — the globals a bare name inside
`watchdog_thread_func` could resolve to.  `WATCHDOG_TIMEOUT_S` is not
among them: unlike web.py line 40, histogram.py never defines it; its only
occurrences in that file are the two uses at lines 463 and 466. -/
def module_constants : List (String × ℚ) :=
  [("EMA_ALPHA", 0.4), ("DEFAULT_PEAK_THRESHOLD", 0.2), ("DEFAULT_FRAME_RATE", 20)]

/-- One tick of histogram.py's `watchdog_thread_func` (lines 461-468):
Python resolves the global name `WATCHDOG_TIMEOUT_S` only when the tick
executes `time.sleep(WATCHDOG_TIMEOUT_S / 2)`.  Were the name bound, the
tick would go on to compare the staleness against it exactly as web.py
does; in histogram.py the lookup fails, `NameError` is raised before the
sleep and the thread dies without ever checking liveness — the
`Except.error` case. -/
def watchdog_tick (now last_frame_time : ℚ) : Except Unit Bool :=
  match module_constants.find? (fun kv => kv.1 == "WATCHDOG_TIMEOUT_S") with
  | some kv => Except.ok (decide (kv.2 < now - last_frame_time))
  | Option.none => Except.error ()

end HistogramPy

namespace WebPy

/-- The acquisition-thread state of web.py's `run_radar_loop`
(lines 225-273): the whole body — connection, configuration and the
`while not stop_radar_thread.is_set()` frame loop — sits inside a single
`try ... except Exception`, and the `except` clause is outside the loop,
so after handling one error the function falls through to its final print
and returns: the thread is terminated. -/
inductive ThreadState where
  | running (smoothed : Option (ℚ × ℚ))
  | terminated
deriving DecidableEq, Repr

/-- One frame event of web.py's loop: a successful iteration keeps the
thread running with its new smoothing state; any error jumps to the
`except` clause, which broadcasts the `waiting_for_device` status and lets
the thread function return — no backoff sleep, no reconnection attempt.  A
terminated thread processes nothing further. -/
def thread_step (s : ThreadState) (ev : Except Unit (Option (ℚ × ℚ))) :
    ThreadState × Option Status :=
  match s, ev with
  | ThreadState.terminated, _ => (ThreadState.terminated, Option.none)
  | ThreadState.running _, Except.ok sm => (ThreadState.running sm, Option.none)
  | ThreadState.running _, Except.error _ =>
      (ThreadState.terminated, some Status.waiting_for_device)

/-- Folding a sequence of frame events through web.py's thread. -/
def thread_run (s : ThreadState) : List (Except Unit (Option (ℚ × ℚ))) → ThreadState
  | [] => s
  | ev :: evs => thread_run (thread_step s ev).1 evs

end WebPy

/-! ### Support lemmas -/

/-- The argmax fold only ever returns its start value or a scanned cell. -/
theorem foldl_argstep_mem (f : ℕ → ℕ → ℚ) (l : List (ℕ × ℕ)) (init : ℕ × ℕ) :
    l.foldl (fun best q => if f best.1 best.2 < f q.1 q.2 then q else best) init ∈
      init :: l := by
  induction l generalizing init with
  | nil => simp
  | cons p ps ih =>
      have h := ih (if f init.1 init.2 < f p.1 p.2 then p else init)
      simp only [List.foldl_cons]
      rcases List.mem_cons.mp h with h1 | h1
      · rw [h1]
        by_cases hc : f init.1 init.2 < f p.1 p.2
        · simp [hc]
        · simp [hc]
      · exact List.mem_cons_of_mem _ (List.mem_cons_of_mem _ h1)

/-- For a nonempty shape the argmax indices lie inside the shape. -/
theorem argmax2d_lt (m n : ℕ) (f : ℕ → ℕ → ℚ) (hm : 0 < m) (hn : 0 < n) :
    (argmax2d m n f).1 < m ∧ (argmax2d m n f).2 < n := by
  have h : argmax2d m n f ∈
      (((0, 0) : ℕ × ℕ) ::
        ((List.range m).flatMap fun i => (List.range n).map fun j => (i, j))) :=
    foldl_argstep_mem f _ _
  rcases List.mem_cons.mp h with h1 | h1
  · rw [h1]; exact ⟨hm, hn⟩
  · rcases List.mem_flatMap.mp h1 with ⟨i, hi, hpair⟩
    rcases List.mem_map.mp hpair with ⟨j, hj, hji⟩
    rw [← hji]
    exact ⟨List.mem_range.mp hi, List.mem_range.mp hj⟩

theorem linspace_get? (a b : ℚ) (num i : ℕ) (hi : i < num) :
    (linspace a b num).get? i =
      some (a + (i : ℚ) * (b - a) / ((num : ℚ) - 1)) := by
  rw [linspace, List.get?_eq_getElem?, List.getElem?_map, List.getElem?_range hi]
  rfl

/-- Every entry of `linspace a b num` lies in the interval `[a, b]`
(for `a ≤ b`); in particular the speed axis spans exactly
`[-max_speed_m_s, max_speed_m_s]`. -/
theorem linspace_val_bounds (a b : ℚ) (num i : ℕ) (hi : i < num) (hab : a ≤ b) :
    a ≤ a + (i : ℚ) * (b - a) / ((num : ℚ) - 1) ∧
      a + (i : ℚ) * (b - a) / ((num : ℚ) - 1) ≤ b := by
  rcases Nat.lt_or_ge num 2 with h2 | h2
  · have hnum : num = 1 := by omega
    have hi0 : i = 0 := by omega
    subst hnum; subst hi0
    norm_num
    exact hab
  · have hd : (0 : ℚ) < (num : ℚ) - 1 := by
      have h2q : (2 : ℚ) ≤ (num : ℚ) := by exact_mod_cast h2
      linarith
    have hba : (0 : ℚ) ≤ b - a := sub_nonneg.mpr hab
    have hnn : (0 : ℚ) ≤ (i : ℚ) * (b - a) / ((num : ℚ) - 1) :=
      div_nonneg (mul_nonneg (Nat.cast_nonneg i) hba) hd.le
    refine ⟨by linarith, ?_⟩
    have hile : (i : ℚ) ≤ (num : ℚ) - 1 := by
      have hc : (i : ℚ) + 1 ≤ (num : ℚ) := by exact_mod_cast hi
      linarith
    have hmul : (i : ℚ) * (b - a) ≤ ((num : ℚ) - 1) * (b - a) :=
      mul_le_mul_of_nonneg_right hile hba
    have hdiv : (i : ℚ) * (b - a) / ((num : ℚ) - 1) ≤ b - a := by
      rw [div_le_iff₀ hd]
      linarith
    linarith

theorem calculate_range_axis_get? (N : ℕ) (res : ℚ) (i : ℕ) (hi : i < N / 2) :
    (DopplerAlgo.calculate_range_axis N res).get? i = some ((i : ℚ) * res) := by
  rw [DopplerAlgo.calculate_range_axis, List.get?_eq_getElem?, List.getElem?_map,
    List.getElem?_range hi]
  rfl

/-! ### Concrete values for witnesses and counterexamples -/

/-- The twiddle values for transform length 2:
`exp(-2*pi*i*j/2) = (-1)^j` exactly.  (The length argument is unused; every
transform in the concrete checks below has length 2, where this is the true
twiddle function.) -/
def twiddle2 : ℕ → ℕ → Cplx := fun _N j => ⟨(-1 : ℚ) ^ j, 0⟩

/-- `scipy.signal.windows.blackmanharris(2)`: `general_cosine` evaluates
the four cosine terms at `linspace(-pi, pi, 2) = [-pi, pi]`, where every
`cos(k*pi)` is exactly `1` or `-1`, so both window entries are
`0.35875 - 0.48829 + 0.14128 - 0.01168 = 0.00006 = 3/50000`. -/
def blackmanharris2 : ℕ → ℚ := fun _ => 3 / 50000

/-- The all-ones 2 x 2 frame: two identical chirps of two samples each,
i.e. a purely stationary scene. -/
def onesFrame : ℕ → ℕ → ℚ := fun _ _ => 1

/-- The peak indices lie inside the map shape (specialisation of
`argmax2d_lt` to `peak_index`). -/
theorem peak_index_lt (e : ℕ → ℕ → Cplx) (N : ℕ) (rangeW dopW : ℕ → ℚ)
    (m : ℕ) (frame : ℕ → ℕ → ℚ) (hm : 0 < m) (hn2 : 0 < N / 2) :
    (DopplerAlgo.peak_index e N rangeW dopW m frame).1 < m ∧
      (DopplerAlgo.peak_index e N rangeW dopW m frame).2 < N / 2 :=
  argmax2d_lt m (N / 2) (DopplerAlgo.range_doppler_map_abs e N rangeW dopW m frame) hm hn2

/-! ### The claims -/

/-- C1: for a frame of shape `[chirps_per_frame, samples_per_chirp]`
(with `samples_per_chirp` even and both dimensions positive) processed by
`DopplerAlgo.compute_doppler_map` with its own axis tables
(`range_axis = arange(samples/2) * range_resolution_m`,
`speed_axis = linspace(-max_speed, max_speed, chirps)`), the returned
distance lies in `[0, (samples_per_chirp/2 - 1) * range_resolution_m]` and
the returned speed lies in `[-max_speed_m_s, max_speed_m_s]` — for every
frame content, window values and twiddle values. -/
theorem compute_doppler_map_output_in_range
    (e : ℕ → ℕ → Cplx) (N m : ℕ) (rangeW dopW : ℕ → ℚ)
    (range_resolution_m max_speed_m_s : ℚ) (frame : ℕ → ℕ → ℚ)
    (hm : 0 < m) (hN : 2 ≤ N) (_heven : N % 2 = 0)
    (hres : 0 ≤ range_resolution_m) (hmax : 0 ≤ max_speed_m_s) :
    0 ≤ (DopplerAlgo.compute_doppler_map e N rangeW dopW
        (DopplerAlgo.calculate_range_axis N range_resolution_m)
        (DopplerAlgo.calculate_speed_axis m max_speed_m_s) m frame).1 ∧
    (DopplerAlgo.compute_doppler_map e N rangeW dopW
        (DopplerAlgo.calculate_range_axis N range_resolution_m)
        (DopplerAlgo.calculate_speed_axis m max_speed_m_s) m frame).1 ≤
      (((N / 2 : ℕ) : ℚ) - 1) * range_resolution_m ∧
    -max_speed_m_s ≤ (DopplerAlgo.compute_doppler_map e N rangeW dopW
        (DopplerAlgo.calculate_range_axis N range_resolution_m)
        (DopplerAlgo.calculate_speed_axis m max_speed_m_s) m frame).2.1 ∧
    (DopplerAlgo.compute_doppler_map e N rangeW dopW
        (DopplerAlgo.calculate_range_axis N range_resolution_m)
        (DopplerAlgo.calculate_speed_axis m max_speed_m_s) m frame).2.1 ≤
      max_speed_m_s := by
  have hn2 : 0 < N / 2 := Nat.div_pos hN (by norm_num)
  obtain ⟨hp1, hp2⟩ := peak_index_lt e N rangeW dopW m frame hm hn2
  have hr := calculate_range_axis_get? N range_resolution_m _ hp2
  have hs := linspace_get? (-max_speed_m_s) max_speed_m_s m _ hp1
  have hab : -max_speed_m_s ≤ max_speed_m_s := by linarith
  obtain ⟨hlo, hhi⟩ := linspace_val_bounds (-max_speed_m_s) max_speed_m_s m
    (DopplerAlgo.peak_index e N rangeW dopW m frame).1 hp1 hab
  unfold DopplerAlgo.compute_doppler_map
  rw [DopplerAlgo.calculate_speed_axis, hr, hs]
  refine ⟨?_, ?_, hlo, hhi⟩
  · exact mul_nonneg (Nat.cast_nonneg _) hres
  · have hcast : ((DopplerAlgo.peak_index e N rangeW dopW m frame).2 : ℚ) + 1 ≤
        ((N / 2 : ℕ) : ℚ) := by exact_mod_cast hp2
    have hle : ((DopplerAlgo.peak_index e N rangeW dopW m frame).2 : ℚ) ≤
        ((N / 2 : ℕ) : ℚ) - 1 := by linarith
    exact mul_le_mul_of_nonneg_right hle hres

/-- Witness for C1 at a concrete input: a 2 x 2 all-ones frame with the
true length-2 window and twiddle values, the 0.05 m range resolution and
3 m/s maximum speed of the source's `FmcwMetrics`. -/
theorem compute_doppler_map_output_in_range_witness :
    ((0 < 2 ∧ 2 ≤ 2 ∧ 2 % 2 = 0) ∧ ((0 : ℚ) ≤ 1 / 20) ∧ (0 : ℚ) ≤ 3) ∧
    (0 ≤ (DopplerAlgo.compute_doppler_map twiddle2 2 blackmanharris2 blackmanharris2
        (DopplerAlgo.calculate_range_axis 2 (1 / 20))
        (DopplerAlgo.calculate_speed_axis 2 3) 2 onesFrame).1 ∧
    (DopplerAlgo.compute_doppler_map twiddle2 2 blackmanharris2 blackmanharris2
        (DopplerAlgo.calculate_range_axis 2 (1 / 20))
        (DopplerAlgo.calculate_speed_axis 2 3) 2 onesFrame).1 ≤
      (((2 / 2 : ℕ) : ℚ) - 1) * (1 / 20) ∧
    -(3 : ℚ) ≤ (DopplerAlgo.compute_doppler_map twiddle2 2 blackmanharris2 blackmanharris2
        (DopplerAlgo.calculate_range_axis 2 (1 / 20))
        (DopplerAlgo.calculate_speed_axis 2 3) 2 onesFrame).2.1 ∧
    (DopplerAlgo.compute_doppler_map twiddle2 2 blackmanharris2 blackmanharris2
        (DopplerAlgo.calculate_range_axis 2 (1 / 20))
        (DopplerAlgo.calculate_speed_axis 2 3) 2 onesFrame).2.1 ≤ 3) :=
  ⟨⟨by decide, by simp, by decide⟩,
    compute_doppler_map_output_in_range twiddle2 2 2 blackmanharris2 blackmanharris2
      (1 / 20) 3 onesFrame (by decide) (by decide) (by decide) (by simp) (by decide)⟩

/-- C2 (amended): in the `DopplerAlgo.compute_doppler_map` variant of
radar_webserver.py / test.py / web.py / dop_me.py / histogram.py / h2.py
the per-bin mean across chirps is subtracted from the range-FFT result
(MTI) before the Doppler FFT, so a frame whose chirps are all identical
(purely stationary scene) produces a zero range-Doppler map — for every
window and twiddle value.  (helper.py's variant omits the MTI step; see the
counterexample below.) -/
theorem mti_identical_chirps_zero_map
    (e : ℕ → ℕ → Cplx) (N : ℕ) (rangeW dopW : ℕ → ℚ) (m : ℕ) (frame : ℕ → ℕ → ℚ)
    (hm : 0 < m) (hrows : ∀ c, c < m → ∀ j, frame c j = frame 0 j) :
    ∀ d k, DopplerAlgo.range_doppler_map_abs e N rangeW dopW m frame d k = 0 := by
  intro d k
  have hB : ∀ c, c < m → ∀ k2,
      DopplerAlgo.range_fft e N rangeW frame c k2 =
        DopplerAlgo.range_fft e N rangeW frame 0 k2 := by
    intro c hc k2
    unfold DopplerAlgo.range_fft dft
    refine Finset.sum_congr rfl ?_
    intro n _
    simp only [hrows c hc]
  have hmean : ∀ k2,
      DopplerAlgo.mean_across_chirps m (DopplerAlgo.range_fft e N rangeW frame) k2 =
        DopplerAlgo.range_fft e N rangeW frame 0 k2 := by
    intro k2
    unfold DopplerAlgo.mean_across_chirps
    rw [Finset.sum_congr rfl fun c hc => hB c (Finset.mem_range.mp hc) k2,
      Cplx.sum_const_range, ← mul_assoc, ← Cplx.ofRat_mul]
    have hm0 : (m : ℚ) ≠ 0 := Nat.cast_ne_zero.mpr hm.ne'
    rw [one_div_mul_cancel hm0, Cplx.ofRat_one, one_mul]
  have hdd : ∀ c, c < m → ∀ k2,
      DopplerAlgo.doppler_data e N rangeW dopW m frame c k2 = 0 := by
    intro c hc k2
    unfold DopplerAlgo.doppler_data DopplerAlgo.range_fft_mti
    rw [hmean k2, hB c hc k2, sub_self, mul_zero]
  have hdft : ∀ i,
      dft e m (fun c => DopplerAlgo.doppler_data e N rangeW dopW m frame c k) i = 0 := by
    intro i
    unfold dft
    refine Finset.sum_eq_zero ?_
    intro c hc
    simp only [hdd c (Finset.mem_range.mp hc) k, zero_mul]
  unfold DopplerAlgo.range_doppler_map_abs DopplerAlgo.range_doppler_map fftshift
  simp only [hdft, Cplx.absSq_zero]

/-- Witness for the amended C2: the all-ones 2 x 2 frame (two identical
chirps) with the true length-2 window and twiddle values yields an
everywhere-zero range-Doppler map under the MTI variant. -/
theorem mti_identical_chirps_zero_map_witness :
    ((0 < 2) ∧ ∀ c, c < 2 → ∀ j, onesFrame c j = onesFrame 0 j) ∧
      ∀ d k, DopplerAlgo.range_doppler_map_abs twiddle2 2 blackmanharris2 blackmanharris2
        2 onesFrame d k = 0 :=
  ⟨⟨by decide, fun _ _ _ => rfl⟩,
    mti_identical_chirps_zero_map twiddle2 2 blackmanharris2 blackmanharris2 2 onesFrame
      (by decide) (fun _ _ _ => rfl)⟩

/-- Counterexample for C2 as stated: helper.py's
`DopplerAlgo.compute_doppler_map` (cited by the claim) performs no MTI
subtraction, and on the all-ones 2 x 2 frame — all chirps identical, a
purely stationary scene — its range-Doppler map is nonzero at the
shifted zero-Doppler row (Doppler index 1, range bin 0), using the true
length-2 Blackman-Harris window values and twiddle factors. -/
theorem helper_identical_chirps_nonzero_map :
    (∀ c, c < 2 → ∀ j, onesFrame c j = onesFrame 0 j) ∧
      HelperPy.range_doppler_map_abs twiddle2 2 blackmanharris2 blackmanharris2
        2 onesFrame 1 0 ≠ 0 := by
  refine ⟨fun _ _ _ => rfl, ?_⟩
  unfold HelperPy.range_doppler_map_abs HelperPy.doppler_data DopplerAlgo.range_fft
  unfold fftshift dft Cplx.absSq
  simp only [Finset.sum_range_succ, Finset.sum_range_zero, twiddle2, blackmanharris2,
    onesFrame, Cplx.ofRat, Cplx.add_re, Cplx.add_im, Cplx.mul_re, Cplx.mul_im,
    Cplx.zero_re, Cplx.zero_im, zero_add]
  norm_num

/-- C3: whenever the peak's derived bin index falls outside the
precomputed range or speed axis table (e.g. a stale axis shorter than the
frame has Doppler bins), `compute_doppler_map` returns `(0, 0, 0)`: in the
source the out-of-bounds lookup raises `IndexError`, which the
`except IndexError` clause converts to `(0.0, 0.0, 0.0)`, so no exception
escapes (the model is a total function). -/
theorem compute_doppler_map_stale_axes_zero
    (e : ℕ → ℕ → Cplx) (N : ℕ) (rangeW dopW : ℕ → ℚ)
    (range_axis speed_axis : List ℚ) (m : ℕ) (frame : ℕ → ℕ → ℚ)
    (h : range_axis.length ≤ (DopplerAlgo.peak_index e N rangeW dopW m frame).2 ∨
         speed_axis.length ≤ (DopplerAlgo.peak_index e N rangeW dopW m frame).1) :
    DopplerAlgo.compute_doppler_map e N rangeW dopW range_axis speed_axis m frame =
      (0, 0, 0) := by
  unfold DopplerAlgo.compute_doppler_map
  rcases h with h | h
  · rw [List.get?_eq_none.mpr h]
  · rw [List.get?_eq_none.mpr h]
    cases range_axis.get? (DopplerAlgo.peak_index e N rangeW dopW m frame).2 <;> rfl

/-- Witness for C3: with empty (stale) axis tables every lookup fails and
the result is `(0, 0, 0)`. -/
theorem compute_doppler_map_stale_axes_zero_witness :
    (([] : List ℚ).length ≤
        (DopplerAlgo.peak_index twiddle2 2 blackmanharris2 blackmanharris2 2 onesFrame).2 ∨
      ([] : List ℚ).length ≤
        (DopplerAlgo.peak_index twiddle2 2 blackmanharris2 blackmanharris2 2 onesFrame).1) ∧
    DopplerAlgo.compute_doppler_map twiddle2 2 blackmanharris2 blackmanharris2
      [] [] 2 onesFrame = (0, 0, 0) :=
  ⟨Or.inl (Nat.zero_le _),
    compute_doppler_map_stale_axes_zero twiddle2 2 blackmanharris2 blackmanharris2
      [] [] 2 onesFrame (Or.inl (Nat.zero_le _))⟩

/-- C4: in the valid (above-threshold) branch of test.py's
`run_radar_loop`, the first valid sample after a reset (smoothing state
unset, `None`) sets the smoothed pair directly to
`(distance_cm, speed_ms)` with no blending; any later valid sample updates
each component by `smoothed = 0.4 * new + (1 - 0.4) * smoothed_prev`,
independently for the distance in cm and the speed in m/s. -/
theorem run_radar_loop_step_ema (peak_threshold speed_resolution_m_s : ℚ)
    (stats : Stats) (distance_m speed_ms peak_value : ℚ)
    (hp : peak_threshold ≤ peak_value) :
    (run_radar_loop_step peak_threshold speed_resolution_m_s Option.none stats
        distance_m speed_ms peak_value).1 = some (distance_m * 100, speed_ms) ∧
    ∀ pd ps,
      (run_radar_loop_step peak_threshold speed_resolution_m_s (some (pd, ps)) stats
          distance_m speed_ms peak_value).1 =
        some (0.4 * (distance_m * 100) + (1 - 0.4) * pd,
          0.4 * speed_ms + (1 - 0.4) * ps) := by
  constructor
  · simp [run_radar_loop_step, hp]
  · intro pd ps
    simp [run_radar_loop_step, hp, EMA_ALPHA]

/-- Witness for C4 at a concrete above-threshold sample. -/
theorem run_radar_loop_step_ema_witness :
    ((0 : ℚ) ≤ 1) ∧
    ((run_radar_loop_step 0 1 Option.none reset_stats 1 1 1).1 = some (1 * 100, 1) ∧
      ∀ pd ps, (run_radar_loop_step 0 1 (some (pd, ps)) reset_stats 1 1 1).1 =
        some (0.4 * (1 * 100) + (1 - 0.4) * pd, 0.4 * 1 + (1 - 0.4) * ps)) :=
  ⟨by decide, run_radar_loop_step_ema 0 1 reset_stats 1 1 1 (by decide)⟩

/-- C5: in the valid (above-threshold) branch of radar_webserver.py's
`run_radar_loop`, the published direction is classified from the smoothed
speed — Static when its absolute value is below `speed_resolution_m_s`,
Approaching when it is negative, Receding otherwise — and the published
`speed_ms` is exactly that smoothed speed (the new baseline on the first
valid sample, the EMA blend afterwards). -/
theorem radar_webserver_step_direction (peak_threshold speed_resolution_m_s : ℚ)
    (smoothed : Option (ℚ × ℚ)) (distance_m speed_ms peak_value : ℚ)
    (hp : peak_threshold ≤ peak_value) :
    (radar_webserver_step peak_threshold speed_resolution_m_s smoothed
        distance_m speed_ms peak_value).2.direction =
      (if |(radar_webserver_step peak_threshold speed_resolution_m_s smoothed
            distance_m speed_ms peak_value).2.speed_ms| < speed_resolution_m_s then
          Direction.static
        else if (radar_webserver_step peak_threshold speed_resolution_m_s smoothed
            distance_m speed_ms peak_value).2.speed_ms < 0 then Direction.approaching
        else Direction.receding) ∧
    (radar_webserver_step peak_threshold speed_resolution_m_s smoothed
        distance_m speed_ms peak_value).2.speed_ms =
      (match smoothed with
       | Option.none => speed_ms
       | some (_, ps) => 0.4 * speed_ms + (1 - 0.4) * ps) := by
  cases smoothed with
  | none => simp [radar_webserver_step, hp]
  | some pr =>
      cases pr with
      | mk pd ps => simp [radar_webserver_step, hp, EMA_ALPHA]

/-- Witness for C5 at a concrete above-threshold sample. -/
theorem radar_webserver_step_direction_witness :
    ((0 : ℚ) ≤ 1) ∧
    ((radar_webserver_step 0 1 (some (50, 2)) 1 1 1).2.direction =
      (if |(radar_webserver_step 0 1 (some (50, 2)) 1 1 1).2.speed_ms| < 1 then
          Direction.static
        else if (radar_webserver_step 0 1 (some (50, 2)) 1 1 1).2.speed_ms < 0 then
          Direction.approaching
        else Direction.receding) ∧
    (radar_webserver_step 0 1 (some (50, 2)) 1 1 1).2.speed_ms =
      (match (some ((50 : ℚ), (2 : ℚ)) : Option (ℚ × ℚ)) with
       | Option.none => (1 : ℚ)
       | some (_, ps) => 0.4 * 1 + (1 - 0.4) * ps)) :=
  ⟨by decide, radar_webserver_step_direction 0 1 (some (50, 2)) 1 1 1 (by decide)⟩

/-- C6: a below-threshold cycle of test.py's `run_radar_loop` publishes a
payload with zeroed distance, speed and peak and the "---" (no target)
direction, and leaves the accumulated min/max statistics unchanged. -/
theorem run_radar_loop_step_below_threshold (peak_threshold speed_resolution_m_s : ℚ)
    (smoothed : Option (ℚ × ℚ)) (stats : Stats) (distance_m speed_ms peak_value : ℚ)
    (hp : peak_value < peak_threshold) :
    (run_radar_loop_step peak_threshold speed_resolution_m_s smoothed stats
        distance_m speed_ms peak_value).2.2 =
      ⟨Status.connected, 0, 0, Direction.none, 0⟩ ∧
    (run_radar_loop_step peak_threshold speed_resolution_m_s smoothed stats
        distance_m speed_ms peak_value).2.1 = stats := by
  have h : ¬ peak_threshold ≤ peak_value := not_le.mpr hp
  simp [run_radar_loop_step, h]

/-- Witness for C6 at a concrete below-threshold sample. -/
theorem run_radar_loop_step_below_threshold_witness :
    ((0 : ℚ) < 1) ∧
    ((run_radar_loop_step 1 1 (some (50, 2)) reset_stats 1 1 0).2.2 =
      ⟨Status.connected, 0, 0, Direction.none, 0⟩ ∧
    (run_radar_loop_step 1 1 (some (50, 2)) reset_stats 1 1 0).2.1 = reset_stats) :=
  ⟨by decide, run_radar_loop_step_below_threshold 1 1 (some (50, 2)) reset_stats 1 1 0
    (by decide)⟩

/-- C7: a requested chirp count violating
`chirps * duration <= 0.9 / frame_rate` is clamped to
`floor(0.9 * (1/frame_rate) / duration)` before the device is configured —
a value satisfying the inequality and strictly below the request — and the
warning flag (the logged clamp message) is raised; a request already
within budget is applied unchanged with no warning. -/
theorem clamp_num_chirps_correct (chirp_duration_s frate : ℚ) (num_chirps : ℤ)
    (hdur : 0 < chirp_duration_s) (hfr : 0 < frate) :
    (0.9 * (1 / frate) < (num_chirps : ℚ) * chirp_duration_s →
      (clamp_num_chirps chirp_duration_s frate num_chirps).1 =
          ⌊0.9 * (1 / frate) / chirp_duration_s⌋ ∧
        ((clamp_num_chirps chirp_duration_s frate num_chirps).1 : ℚ) *
            chirp_duration_s ≤ 0.9 * (1 / frate) ∧
        (clamp_num_chirps chirp_duration_s frate num_chirps).1 < num_chirps ∧
        (clamp_num_chirps chirp_duration_s frate num_chirps).2 = true) ∧
    ((num_chirps : ℚ) * chirp_duration_s ≤ 0.9 * (1 / frate) →
      (clamp_num_chirps chirp_duration_s frate num_chirps).1 = num_chirps ∧
        (clamp_num_chirps chirp_duration_s frate num_chirps).2 = false) := by
  constructor
  · intro hv
    have hcond : 1 / frate * 0.9 < chirp_duration_s * (num_chirps : ℚ) := by
      rw [mul_comm (1 / frate) (0.9 : ℚ), mul_comm chirp_duration_s ((num_chirps : ℤ) : ℚ)]
      exact hv
    have hstep : clamp_num_chirps chirp_duration_s frate num_chirps =
        (⌊1 / frate * 0.9 / chirp_duration_s⌋, true) := by
      simp only [clamp_num_chirps]
      rw [if_pos hcond]
    rw [hstep]
    have hfloor : ⌊1 / frate * 0.9 / chirp_duration_s⌋ =
        ⌊0.9 * (1 / frate) / chirp_duration_s⌋ := by
      rw [mul_comm (1 / frate) (0.9 : ℚ)]
    refine ⟨hfloor, ?_, ?_, rfl⟩
    · have hfl : ((⌊1 / frate * 0.9 / chirp_duration_s⌋ : ℤ) : ℚ) ≤
          1 / frate * 0.9 / chirp_duration_s := Int.floor_le _
      have hmul : ((⌊1 / frate * 0.9 / chirp_duration_s⌋ : ℤ) : ℚ) * chirp_duration_s ≤
          1 / frate * 0.9 / chirp_duration_s * chirp_duration_s :=
        mul_le_mul_of_nonneg_right hfl hdur.le
      have hxd : 1 / frate * 0.9 / chirp_duration_s * chirp_duration_s =
          0.9 * (1 / frate) := by
        field_simp
        ring
      rw [hxd] at hmul
      exact hmul
    · refine Int.floor_lt.mpr ?_
      rw [div_lt_iff₀ hdur, mul_comm ((num_chirps : ℤ) : ℚ) chirp_duration_s]
      exact hcond
  · intro hle
    have hcond : ¬ (1 / frate * 0.9 < chirp_duration_s * (num_chirps : ℚ)) := by
      rw [not_lt, mul_comm chirp_duration_s ((num_chirps : ℤ) : ℚ),
        mul_comm (1 / frate) (0.9 : ℚ)]
      exact hle
    simp only [clamp_num_chirps]
    rw [if_neg hcond]
    exact ⟨rfl, rfl⟩

/-- Witness for C7 at a concrete configuration. -/
theorem clamp_num_chirps_correct_witness :
    ((0 : ℚ) < 1 ∧ (0 : ℚ) < 1) ∧
    ((0.9 * (1 / 1) < ((64 : ℤ) : ℚ) * 1 →
      (clamp_num_chirps 1 1 64).1 = ⌊(0.9 : ℚ) * (1 / 1) / 1⌋ ∧
        ((clamp_num_chirps 1 1 64).1 : ℚ) * 1 ≤ 0.9 * (1 / 1) ∧
        (clamp_num_chirps 1 1 64).1 < 64 ∧
        (clamp_num_chirps 1 1 64).2 = true) ∧
    (((64 : ℤ) : ℚ) * 1 ≤ 0.9 * (1 / 1) →
      (clamp_num_chirps 1 1 64).1 = 64 ∧ (clamp_num_chirps 1 1 64).2 = false)) :=
  ⟨⟨by decide, by decide⟩, clamp_num_chirps_correct 1 1 64 (by decide) (by decide)⟩

/-- The watchdog contract as web.py implements it (supporting theorem for
C8, whose claim text this variant satisfies): checks are
`WATCHDOG_TIMEOUT_S / 2` seconds apart, the fixed timeout is 10 seconds,
a check triggers the full-process restart (`os.execv`) if and only if the
time since the last successful frame strictly exceeds the timeout, and
while every check sees a frame within the timeout no restart ever
fires. -/
theorem watchdog_period_and_restart_iff :
    WATCHDOG_TIMEOUT_S = 10 ∧
    (∀ start k, watchdog_tick_time start (k + 1) - watchdog_tick_time start k =
      WATCHDOG_TIMEOUT_S / 2) ∧
    (∀ now last_frame_time, watchdog_check now last_frame_time = true ↔
      WATCHDOG_TIMEOUT_S < now - last_frame_time) ∧
    (∀ start (last_frame_time : ℕ → ℚ),
      (∀ k : ℕ, watchdog_tick_time start k - last_frame_time k ≤ WATCHDOG_TIMEOUT_S) →
      ∀ k : ℕ, watchdog_check (watchdog_tick_time start k) (last_frame_time k) = false) := by
  refine ⟨rfl, ?_, ?_, ?_⟩
  · intro start k
    unfold watchdog_tick_time
    push_cast
    ring
  · intro now l
    unfold watchdog_check
    exact decide_eq_true_iff
  · intro start l h k
    unfold watchdog_check
    simp only [decide_eq_false_iff_not, not_lt]
    exact h k

/-- Witness for C8: when every check sees a frame that just arrived
(elapsed 0 ≤ 10) no check restarts. -/
theorem watchdog_period_and_restart_iff_witness :
    (∀ k : ℕ, watchdog_tick_time 0 k - watchdog_tick_time 0 k ≤ WATCHDOG_TIMEOUT_S) ∧
    ∀ k : ℕ, watchdog_check (watchdog_tick_time 0 k) (watchdog_tick_time 0 k) = false :=
  ⟨fun k => by simp [WATCHDOG_TIMEOUT_S],
    watchdog_period_and_restart_iff.2.2.2 0 (fun k => watchdog_tick_time 0 k)
      (fun k => by simp [WATCHDOG_TIMEOUT_S])⟩

/-- C9 (amended): in the resilient `while True:` loops of test.py and
radar_webserver.py, any error while acquiring or processing a frame is
caught by the loop's `except Exception` handler, which publishes the
`waiting_for_device` status, discards the device handle, resets the
smoothing state to unset, resets the statistics and backs off a fixed 3
seconds; the loop then continues with no device handle (so the next
iteration attempts reconnection), and any number of consecutive errors
keeps it in this recovery state — the iteration is total, so no frame
error terminates the loop.  (web.py's older thread variant instead
terminates on the first error: see the `WebPy` counterexample for C9.) -/
theorem run_radar_loop_fault_recovery :
    (∀ s : LoopState, on_frame_error s =
      (⟨Option.none, false, reset_stats⟩, Status.waiting_for_device, 3)) ∧
    (∀ (body : LoopState → Except Unit (LoopState × Status)) (s : LoopState) (err : Unit),
      body s = Except.error err →
      loop_iteration body s =
        (⟨Option.none, false, reset_stats⟩, Status.waiting_for_device, 3)) ∧
    (∀ (s : LoopState) (n : ℕ), 0 < n →
      iterate_loop (fun _ => Except.error ()) n s = ⟨Option.none, false, reset_stats⟩) := by
  refine ⟨fun s => rfl, ?_, ?_⟩
  · intro body s err h
    unfold loop_iteration
    rw [h]
    rfl
  · have key : ∀ (n : ℕ) (s : LoopState),
        iterate_loop (fun _ => Except.error ()) (n + 1) s =
          ⟨Option.none, false, reset_stats⟩ := by
      intro n
      induction n with
      | zero => intro s; rfl
      | succ m ih => intro s; exact ih _
    intro s n hn
    obtain ⟨m, rfl⟩ : ∃ m, n = m + 1 := ⟨n - 1, by omega⟩
    exact key m s

/-- Witness for C9: a concrete failing body applied at a concrete
connected state. -/
theorem run_radar_loop_fault_recovery_witness :
    ((fun _ : LoopState => (Except.error () : Except Unit (LoopState × Status)))
        ⟨some (50, 1), true, reset_stats⟩ = Except.error () ∧ 0 < 2) ∧
    (loop_iteration (fun _ => Except.error ()) ⟨some (50, 1), true, reset_stats⟩ =
      (⟨Option.none, false, reset_stats⟩, Status.waiting_for_device, 3) ∧
    iterate_loop (fun _ => Except.error ()) 2 ⟨some (50, 1), true, reset_stats⟩ =
      ⟨Option.none, false, reset_stats⟩) :=
  ⟨⟨rfl, by decide⟩,
    ⟨run_radar_loop_fault_recovery.2.1 (fun _ => Except.error ())
        ⟨some (50, 1), true, reset_stats⟩ () rfl,
      run_radar_loop_fault_recovery.2.2 ⟨some (50, 1), true, reset_stats⟩ 2 (by decide)⟩⟩

/-- C10: in radar_webserver.py's loop a below-threshold frame overwrites
the smoothing accumulators with `0.0` (not `None`, and not leaving them
unchanged), so the first valid sample after such a gap is EMA-blended with
zero — `smoothed = 0.4 * new` — rather than resuming from the pre-gap
smoothed value or starting a fresh baseline. -/
theorem radar_webserver_below_threshold_blend
    (peak_threshold speed_resolution_m_s : ℚ) (smoothed : Option (ℚ × ℚ))
    (d1 s1 p1 d2 s2 p2 : ℚ) (h1 : p1 < peak_threshold) (h2 : peak_threshold ≤ p2) :
    (radar_webserver_step peak_threshold speed_resolution_m_s smoothed d1 s1 p1).1 =
      some (0, 0) ∧
    (radar_webserver_step peak_threshold speed_resolution_m_s
        (radar_webserver_step peak_threshold speed_resolution_m_s smoothed d1 s1 p1).1
        d2 s2 p2).1 = some (0.4 * (d2 * 100), 0.4 * s2) := by
  have hn : ¬ peak_threshold ≤ p1 := not_le.mpr h1
  constructor
  · simp [radar_webserver_step, hn]
  · simp [radar_webserver_step, hn, h2, EMA_ALPHA]

/-- Witness for C10: a below-threshold frame followed by an
above-threshold one at a concrete threshold. -/
theorem radar_webserver_below_threshold_blend_witness :
    ((0 : ℚ) < 1 ∧ (1 : ℚ) ≤ 1) ∧
    ((radar_webserver_step 1 1 (some (50, 2)) 1 1 0).1 = some (0, 0) ∧
    (radar_webserver_step 1 1 (radar_webserver_step 1 1 (some (50, 2)) 1 1 0).1
        2 3 1).1 = some (0.4 * (2 * 100), 0.4 * 3)) :=
  ⟨⟨by decide, by decide⟩,
    radar_webserver_below_threshold_blend 1 1 (some (50, 2)) 1 1 0 2 3 1
      (by decide) (by decide)⟩

/-- C8: the claimed watchdog behaviour (period `timeout / 2`, restart iff
staleness strictly exceeds the fixed 10 s timeout) is the spec's and
web.py's, but histogram.py's code is broken: its configuration section
never binds `WATCHDOG_TIMEOUT_S` — the name occurs only at the two use
sites inside `watchdog_thread_func` — so every tick of its watchdog
raises `NameError` before any liveness comparison.  histogram.py's
watchdog never checks liveness and never restarts anything. -/
theorem histogram_watchdog_never_checks :
    HistogramPy.module_constants.find? (fun kv => kv.1 == "WATCHDOG_TIMEOUT_S") =
      Option.none ∧
    ∀ now last_frame_time : ℚ,
      HistogramPy.watchdog_tick now last_frame_time = Except.error () :=
  ⟨rfl, fun _ _ => rfl⟩

/-- Counterexample for C9 as stated: in web.py's `run_radar_loop` (cited
by the claim) a single frame error broadcasts `waiting_for_device` and
terminates the acquisition thread — no backoff and no reconnection
attempt: even subsequent would-be-successful iterations are never
reached, so for that variant a frame error IS propagated as a fatal end
of the loop. -/
theorem web_error_terminates_thread :
    WebPy.thread_step (WebPy.ThreadState.running (some (50, 1))) (Except.error ()) =
      (WebPy.ThreadState.terminated, some Status.waiting_for_device) ∧
    WebPy.thread_run (WebPy.ThreadState.running (some (50, 1)))
        [Except.error (), Except.ok (some (60, 2)), Except.ok (some (70, 1))] =
      WebPy.ThreadState.terminated :=
  ⟨rfl, rfl⟩
